import Mathlib

/-!
Verification of the LaTeX resume editor front-end (`latex-resume-editor`).

This file gives a shallow embedding of the parts of the code that the
claims concern:

* the debounced autosave controller (`src/hooks/useAutosave.ts`),
  modelled as an explicit state machine `AutosaveState` driven by
  events (`AEvent`): a re-render with new props, a 1 ms clock tick of
  the pending debounce timer, and completion of an in-flight save;
* the application shell (`App.tsx`): document state, dirty tracking,
  and the `handleOpen` / `handleSave` / `handleSaveAs` /
  `handleCompile` handlers, with asynchronous RPC outcomes passed in
  as explicit `Except` values;
* the Tauri API wrappers `openFile` / `saveFileAs` (`src/tauri/api.ts`),
  with the native dialog outcome and the remote procedure passed in
  explicitly.

JavaScript `===` becomes decidable equality; JS truthiness of a
`string | null` value (`result.log || ...`, `result.pdf_path`) is
embedded explicitly (`none` and the empty string are falsy).
-/

/-! ## Autosave controller (`useAutosave`) -/

/-- State of the autosave controller.  `content`, `filePath`,
`enabled` and `delay` mirror the hook props of the current render;
`lastSaved` is `lastSavedContentRef.current`; `saving` is
`isSavingRef.current` together with the content captured by the
in-flight `save` closure (`none` = not saving); `timer` is the
remaining milliseconds of the pending debounce timeout (`none` = no
pending timeout).  `savedCalls` logs each invocation of the `onSave`
action with the content current at invocation time. -/
structure AutosaveState where
  content : String
  filePath : Option String
  enabled : Bool
  delay : Nat
  lastSaved : String
  saving : Option String
  timer : Option Nat
  savedCalls : List String
  deriving Repr, DecidableEq

/-- Events driving the autosave controller: a re-render with (possibly
new) `content` and `filePath` props, one millisecond of elapsed time,
and completion of the in-flight `onSave` promise (`ok` = resolved,
otherwise rejected). -/
inductive AEvent where
  | props (c : String) (p : Option String)
  | tick
  | complete (ok : Bool)
  deriving Repr, DecidableEq

/-- Effect body of `useAutosave`'s first `useEffect`: the cleanup of
the previous run has cleared any pending timeout; if `enabled` and a
file path exists, arm a fresh timeout for `delay` ms. -/
def rearm (s : AutosaveState) : AutosaveState :=
  if s.enabled ∧ s.filePath.isSome then { s with timer := some s.delay }
  else { s with timer := none }

/-- Body of the `save` callback that the debounce timeout invokes:
guard on an in-flight save, on unchanged content, and on a missing
file path, in the source's order; otherwise mark in-flight and invoke
`onSave` (logged in `savedCalls`).  The snapshot update happens at
promise completion (`AEvent.complete`), not here. -/
def saveFire (s : AutosaveState) : AutosaveState :=
  if s.saving.isSome then s
  else if s.content = s.lastSaved then s
  else if s.filePath.isNone then s
  else { s with saving := some s.content, savedCalls := s.savedCalls ++ [s.content] }

/-- One step of the autosave controller.

`props c p`: a re-render.  If neither prop changed, no effect re-runs
(their dependency arrays are unchanged).  Otherwise the first effect's
cleanup clears the pending timeout and the effect re-arms it
(`rearm`); if the file path changed, the second effect additionally
resets `lastSavedContentRef` to the current content.

`tick`: one millisecond elapses; a pending timeout fires when it
reaches zero, running `save` (`saveFire`).

`complete ok`: the in-flight `onSave` promise settles; on success the
snapshot becomes the captured content, on failure it is unchanged (the
error is only logged); the in-flight flag clears either way. -/
def astep (s : AutosaveState) : AEvent → AutosaveState
  | .props c p =>
      if c = s.content ∧ p = s.filePath then s
      else
        let s1 := rearm { s with content := c, filePath := p }
        if p = s.filePath then s1 else { s1 with lastSaved := c }
  | .tick =>
      match s.timer with
      | none => s
      | some n => if n ≤ 1 then saveFire { s with timer := none }
                  else { s with timer := some (n - 1) }
  | .complete ok =>
      match s.saving with
      | none => s
      | some c =>
          if ok then { s with lastSaved := c, saving := none }
          else { s with saving := none }

/-- Run a list of events from a state. -/
def runEvents (s : AutosaveState) (es : List AEvent) : AutosaveState :=
  es.foldl astep s

/-- Run `n` clock ticks from a state. -/
def runTicks (s : AutosaveState) : Nat → AutosaveState
  | 0 => s
  | n + 1 => astep (runTicks s n) .tick

/-- Controller state right after mounting the hook: refs are
initialised (`lastSavedContentRef` to the initial content, no timer,
not saving) and both effects have run once. -/
def mountAutosave (c : String) (p : Option String) (e : Bool) (d : Nat) : AutosaveState :=
  rearm { content := c, filePath := p, enabled := e, delay := d,
          lastSaved := c, saving := none, timer := none, savedCalls := [] }

/-- Event trace of the rapid-edit scenario: edits to "A", "AB", "ABC"
arriving 200 ms apart, then 1000 ms of quiet. -/
def rapidEdits (p : Option String) : List AEvent :=
  [AEvent.props "A" p] ++ List.replicate 200 AEvent.tick ++
  [AEvent.props "AB" p] ++ List.replicate 200 AEvent.tick ++
  [AEvent.props "ABC" p] ++ List.replicate 1000 AEvent.tick

/-! ### Basic lemmas about the autosave step function -/

lemma runEvents_append (s : AutosaveState) (l1 l2 : List AEvent) :
    runEvents s (l1 ++ l2) = runEvents (runEvents s l1) l2 := by
  simp [runEvents, List.foldl_append]

lemma runTicks_front (s : AutosaveState) (k : Nat) :
    runTicks s (k + 1) = runTicks (astep s .tick) k := by
  induction k with
  | zero => rfl
  | succ k ih =>
      show astep (runTicks s (k + 1)) .tick = _
      rw [ih]
      rfl

lemma runEvents_replicate_tick (s : AutosaveState) (k : Nat) :
    runEvents s (List.replicate k .tick) = runTicks s k := by
  induction k generalizing s with
  | zero => rfl
  | succ k ih =>
      rw [List.replicate_succ]
      simp only [runEvents, List.foldl_cons] at ih ⊢
      rw [ih (astep s .tick), ← runTicks_front]

lemma runTicks_pending (s : AutosaveState) (n k : Nat) (h : s.timer = some n)
    (hk : k < n) : runTicks s k = { s with timer := some (n - k) } := by
  induction k with
  | zero =>
      obtain ⟨c, p, e, d, ls, sv, tm, sc⟩ := s
      simp only at h
      simp [runTicks, h]
  | succ k ih =>
      have hk' : k < n := Nat.lt_of_succ_lt hk
      rw [runTicks, ih hk']
      simp only [astep]
      rw [if_neg (by omega)]
      have : n - k - 1 = n - (k + 1) := by omega
      rw [this]

lemma astep_tick_timer_none (s : AutosaveState) (h : s.timer = none) :
    astep s .tick = s := by
  simp [astep, h]

lemma saveFire_savedCalls (s : AutosaveState) :
    (saveFire s).savedCalls = s.savedCalls ∨
      (saveFire s).savedCalls = s.savedCalls ++ [s.content] := by
  unfold saveFire
  split
  · exact Or.inl rfl
  · split
    · exact Or.inl rfl
    · split
      · exact Or.inl rfl
      · exact Or.inr rfl

lemma saveFire_timer (s : AutosaveState) : (saveFire s).timer = s.timer := by
  unfold saveFire
  split
  · rfl
  · split
    · rfl
    · split
      · rfl
      · rfl

lemma astep_tick_eq (s : AutosaveState) :
    astep s .tick =
      match s.timer with
      | none => s
      | some n => if n ≤ 1 then saveFire { s with timer := none }
                  else { s with timer := some (n - 1) } := rfl

lemma astep_tick_savedCalls (s : AutosaveState) :
    (astep s .tick).savedCalls = s.savedCalls ∨
      ((astep s .tick).savedCalls = s.savedCalls ++ [s.content] ∧
        (astep s .tick).timer = none) := by
  rw [astep_tick_eq]
  cases h : s.timer with
  | none => exact Or.inl rfl
  | some n =>
      by_cases hn : n ≤ 1
      · simp only [hn, if_true]
        rcases saveFire_savedCalls { s with timer := none } with h1 | h1
        · exact Or.inl h1
        · refine Or.inr ⟨h1, ?_⟩
          rw [saveFire_timer]
      · simp [hn]

lemma runTicks_savedCalls_aux (s : AutosaveState) (n : Nat) :
    (runTicks s n).savedCalls = s.savedCalls ∨
      ((runTicks s n).savedCalls.length = s.savedCalls.length + 1 ∧
        (runTicks s n).timer = none) := by
  induction n with
  | zero => exact Or.inl rfl
  | succ n ih =>
      rw [runTicks]
      rcases ih with h | ⟨hlen, htm⟩
      · rcases astep_tick_savedCalls (runTicks s n) with h1 | ⟨h1, h2⟩
        · rw [h1, h]
          exact Or.inl rfl
        · refine Or.inr ⟨?_, h2⟩
          rw [h1, h]
          simp
      · rw [astep_tick_timer_none _ htm]
        exact Or.inr ⟨hlen, htm⟩

/-- Once content stops changing, at most one further save invocation
can occur, however long the quiet period. -/
lemma runTicks_at_most_one (s : AutosaveState) (n : Nat) :
    (runTicks s n).savedCalls.length ≤ s.savedCalls.length + 1 := by
  rcases runTicks_savedCalls_aux s n with h | ⟨h, -⟩
  · rw [h]; omega
  · omega

lemma saveFire_clean (s : AutosaveState) (h : s.content = s.lastSaved) :
    saveFire s = s := by
  simp [saveFire, h]

lemma astep_tick_clean (s : AutosaveState) (h : s.content = s.lastSaved) :
    ∃ tm, astep s .tick = { s with timer := tm } := by
  rw [astep_tick_eq]
  cases htm : s.timer with
  | none =>
      refine ⟨none, ?_⟩
      conv_rhs => rw [← htm]
  | some n =>
      by_cases hn : n ≤ 1
      · refine ⟨none, ?_⟩
        show (if n ≤ 1 then saveFire { s with timer := none }
              else { s with timer := some (n - 1) }) = { s with timer := none }
        rw [if_pos hn]
        exact saveFire_clean _ h
      · refine ⟨some (n - 1), ?_⟩
        show (if n ≤ 1 then saveFire { s with timer := none }
              else { s with timer := some (n - 1) }) = { s with timer := some (n - 1) }
        rw [if_neg hn]

lemma runTicks_clean (s : AutosaveState) (h : s.content = s.lastSaved) (n : Nat) :
    ∃ tm, runTicks s n = { s with timer := tm } := by
  induction n with
  | zero => exact ⟨s.timer, rfl⟩
  | succ n ih =>
      obtain ⟨tm, htm⟩ := ih
      rw [runTicks, htm]
      obtain ⟨tm', htm'⟩ := astep_tick_clean { s with timer := tm } h
      exact ⟨tm', htm'⟩

lemma rearm_savedCalls (s : AutosaveState) : (rearm s).savedCalls = s.savedCalls := by
  unfold rearm
  split <;> rfl

lemma rearm_content (s : AutosaveState) : (rearm s).content = s.content := by
  unfold rearm
  split <;> rfl

lemma saveFire_inflight (s : AutosaveState) (h : s.saving.isSome = true) :
    saveFire s = s := by
  unfold saveFire
  rw [if_pos h]

lemma astep_complete_eq (s : AutosaveState) (ok : Bool) :
    astep s (.complete ok) =
      match s.saving with
      | none => s
      | some c =>
          if ok then { s with lastSaved := c, saving := none }
          else { s with saving := none } := rfl

lemma astep_savedCalls_of_inflight (s : AutosaveState) (e : AEvent)
    (h : s.saving.isSome = true) : (astep s e).savedCalls = s.savedCalls := by
  cases e with
  | props c p =>
      simp only [astep]
      split
      · rfl
      · split
        · exact rearm_savedCalls _
        · exact rearm_savedCalls _
  | tick =>
      rw [astep_tick_eq]
      cases htm : s.timer with
      | none => rfl
      | some n =>
          by_cases hn : n ≤ 1
          · show (if n ≤ 1 then saveFire { s with timer := none }
                  else { s with timer := some (n - 1) }).savedCalls = s.savedCalls
            rw [if_pos hn, saveFire_inflight { s with timer := none } h]
          · show (if n ≤ 1 then saveFire { s with timer := none }
                  else { s with timer := some (n - 1) }).savedCalls = s.savedCalls
            rw [if_neg hn]
  | complete ok =>
      rw [astep_complete_eq]
      cases hs : s.saving with
      | none => rfl
      | some c =>
          cases ok
          · rfl
          · rfl

lemma saveFire_go (s : AutosaveState) (h1 : s.saving = none)
    (h2 : s.content ≠ s.lastSaved) (h3 : s.filePath ≠ none) :
    saveFire s = { s with saving := some s.content,
                          savedCalls := s.savedCalls ++ [s.content] } := by
  unfold saveFire
  rw [if_neg (by simp [h1]), if_neg h2, if_neg (by simp [Option.isNone_iff_eq_none, h3])]

lemma runTicks_succ (s : AutosaveState) (k : Nat) :
    runTicks s (k + 1) = astep (runTicks s k) .tick := rfl

/-- Concrete run of the rapid-edit scenario: edits to "A", "AB", "ABC"
200 ms apart with a 1000 ms debounce produce exactly one `onSave`
invocation, carrying the final content "ABC". -/
lemma rapidEdits_savedCalls :
    (runEvents (mountAutosave "" (some "f.tex") true 1000)
      (rapidEdits (some "f.tex"))).savedCalls = ["ABC"] := by
  have e1 : runEvents (mountAutosave "" (some "f.tex") true 1000)
      [AEvent.props "A" (some "f.tex")] =
      ⟨"A", some "f.tex", true, 1000, "", none, some 1000, []⟩ := by decide
  have e2 : runTicks (⟨"A", some "f.tex", true, 1000, "", none, some 1000, []⟩ :
      AutosaveState) 200 =
      ⟨"A", some "f.tex", true, 1000, "", none, some 800, []⟩ :=
    runTicks_pending _ 1000 200 rfl (by omega)
  have e3 : runEvents (⟨"A", some "f.tex", true, 1000, "", none, some 800, []⟩ :
      AutosaveState) [AEvent.props "AB" (some "f.tex")] =
      ⟨"AB", some "f.tex", true, 1000, "", none, some 1000, []⟩ := by decide
  have e4 : runTicks (⟨"AB", some "f.tex", true, 1000, "", none, some 1000, []⟩ :
      AutosaveState) 200 =
      ⟨"AB", some "f.tex", true, 1000, "", none, some 800, []⟩ :=
    runTicks_pending _ 1000 200 rfl (by omega)
  have e5 : runEvents (⟨"AB", some "f.tex", true, 1000, "", none, some 800, []⟩ :
      AutosaveState) [AEvent.props "ABC" (some "f.tex")] =
      ⟨"ABC", some "f.tex", true, 1000, "", none, some 1000, []⟩ := by decide
  have e6 : runTicks (⟨"ABC", some "f.tex", true, 1000, "", none, some 1000, []⟩ :
      AutosaveState) 999 =
      ⟨"ABC", some "f.tex", true, 1000, "", none, some 1, []⟩ :=
    runTicks_pending _ 1000 999 rfl (by omega)
  have e7 : runTicks (⟨"ABC", some "f.tex", true, 1000, "", none, some 1000, []⟩ :
      AutosaveState) 1000 =
      ⟨"ABC", some "f.tex", true, 1000, "", some "ABC", none, ["ABC"]⟩ := by
    rw [show (1000 : Nat) = 999 + 1 from rfl, runTicks_succ, e6]
    decide
  rw [rapidEdits, runEvents_append, runEvents_append, runEvents_append,
    runEvents_append, runEvents_append, e1,
    runEvents_replicate_tick (⟨"A", some "f.tex", true, 1000, "", none,
      some 1000, []⟩ : AutosaveState) 200, e2, e3,
    runEvents_replicate_tick (⟨"AB", some "f.tex", true, 1000, "", none,
      some 1000, []⟩ : AutosaveState) 200, e4, e5,
    runEvents_replicate_tick (⟨"ABC", some "f.tex", true, 1000, "", none,
      some 1000, []⟩ : AutosaveState) 1000, e7]

/-! ### Claims about the autosave controller -/

/-- C1: while a file identity is set and autosave is enabled, every
content change cancels the pending debounce timer and arms a fresh one
for the full delay; the save action is never invoked while a previous
invocation is in flight; once content stops changing, at most one save
invocation occurs during the quiet period; and the concrete rapid-edit
run "A", "AB", "ABC" (200 ms apart, 1000 ms debounce) produces exactly
one invocation, with final content "ABC". -/
theorem autosave_debounced_single_save :
    (∀ s c, s.enabled = true → s.filePath.isSome = true → c ≠ s.content →
      (astep s (.props c s.filePath)).timer = some s.delay) ∧
    (∀ s e, s.saving.isSome = true → (astep s e).savedCalls = s.savedCalls) ∧
    (∀ s n, (runTicks s n).savedCalls.length ≤ s.savedCalls.length + 1) ∧
    (runEvents (mountAutosave "" (some "f.tex") true 1000)
      (rapidEdits (some "f.tex"))).savedCalls = ["ABC"] := by
  refine ⟨?_, astep_savedCalls_of_inflight, runTicks_at_most_one, rapidEdits_savedCalls⟩
  intro s c he hp hc
  simp [astep, rearm, hc, he, hp]

/-- Closed instance of `autosave_debounced_single_save`: each
hypothesis discharged at a concrete state. -/
theorem autosave_debounced_single_save_witness :
    (astep (⟨"A", some "f", true, 7, "", none, some 3, []⟩ : AutosaveState)
      (.props "B" (some "f"))).timer = some 7 ∧
    (astep (⟨"A", some "f", true, 7, "", some "A", some 3, []⟩ : AutosaveState)
      .tick).savedCalls = [] ∧
    (runTicks (⟨"A", some "f", true, 7, "", none, some 3, []⟩ : AutosaveState)
      5).savedCalls.length ≤ 0 + 1 :=
  ⟨autosave_debounced_single_save.1
      ⟨"A", some "f", true, 7, "", none, some 3, []⟩ "B" rfl rfl (by decide),
   autosave_debounced_single_save.2.1
      ⟨"A", some "f", true, 7, "", some "A", some 3, []⟩ .tick rfl,
   autosave_debounced_single_save.2.2.1
      ⟨"A", some "f", true, 7, "", none, some 3, []⟩ 5⟩

/-- C2: when the debounce timer fires, the save routine is a no-op if
a save is in flight, if content equals the last-saved snapshot, or if
no file identity exists; otherwise it marks in-flight and invokes the
save action; completion updates the snapshot only on success, leaves
it unchanged on failure (no retry is armed and no new invocation
occurs), and clears the in-flight flag in both cases. -/
theorem autosave_save_guards_and_completion :
    (∀ s, s.saving.isSome = true → saveFire s = s) ∧
    (∀ s, s.content = s.lastSaved → saveFire s = s) ∧
    (∀ s, s.filePath = none → saveFire s = s) ∧
    (∀ s, s.saving = none → s.content ≠ s.lastSaved → s.filePath ≠ none →
      saveFire s = { s with saving := some s.content,
                            savedCalls := s.savedCalls ++ [s.content] }) ∧
    (∀ s c, s.saving = some c →
      (astep s (.complete true)).lastSaved = c ∧
      (astep s (.complete true)).saving = none) ∧
    (∀ s c, s.saving = some c →
      (astep s (.complete false)).lastSaved = s.lastSaved ∧
      (astep s (.complete false)).saving = none ∧
      (astep s (.complete false)).savedCalls = s.savedCalls ∧
      (astep s (.complete false)).timer = s.timer) := by
  refine ⟨saveFire_inflight, saveFire_clean, ?_, saveFire_go, ?_, ?_⟩
  · intro s h
    simp [saveFire, h]
  · intro s c h
    rw [astep_complete_eq, h]
    exact ⟨rfl, rfl⟩
  · intro s c h
    rw [astep_complete_eq, h]
    exact ⟨rfl, rfl, rfl, rfl⟩

/-- Closed instance of `autosave_save_guards_and_completion`: each
guard and completion case exercised at a concrete state. -/
theorem autosave_save_guards_and_completion_witness :
    saveFire (⟨"A", some "f", true, 7, "", some "A", none, []⟩ : AutosaveState) =
      ⟨"A", some "f", true, 7, "", some "A", none, []⟩ ∧
    saveFire (⟨"A", some "f", true, 7, "A", none, none, []⟩ : AutosaveState) =
      ⟨"A", some "f", true, 7, "A", none, none, []⟩ ∧
    saveFire (⟨"A", none, true, 7, "", none, none, []⟩ : AutosaveState) =
      ⟨"A", none, true, 7, "", none, none, []⟩ ∧
    saveFire (⟨"A", some "f", true, 7, "", none, none, []⟩ : AutosaveState) =
      ⟨"A", some "f", true, 7, "", some "A", none, ["A"]⟩ ∧
    ((astep (⟨"A", some "f", true, 7, "", some "A", none, []⟩ : AutosaveState)
        (.complete true)).lastSaved = "A" ∧
      (astep (⟨"A", some "f", true, 7, "", some "A", none, []⟩ : AutosaveState)
        (.complete true)).saving = none) ∧
    ((astep (⟨"A", some "f", true, 7, "", some "A", none, []⟩ : AutosaveState)
        (.complete false)).lastSaved = "" ∧
      (astep (⟨"A", some "f", true, 7, "", some "A", none, []⟩ : AutosaveState)
        (.complete false)).saving = none ∧
      (astep (⟨"A", some "f", true, 7, "", some "A", none, []⟩ : AutosaveState)
        (.complete false)).savedCalls = [] ∧
      (astep (⟨"A", some "f", true, 7, "", some "A", none, []⟩ : AutosaveState)
        (.complete false)).timer = none) :=
  ⟨autosave_save_guards_and_completion.1
      ⟨"A", some "f", true, 7, "", some "A", none, []⟩ rfl,
   autosave_save_guards_and_completion.2.1
      ⟨"A", some "f", true, 7, "A", none, none, []⟩ rfl,
   autosave_save_guards_and_completion.2.2.1
      ⟨"A", none, true, 7, "", none, none, []⟩ rfl,
   autosave_save_guards_and_completion.2.2.2.1
      ⟨"A", some "f", true, 7, "", none, none, []⟩ rfl (by decide) (by decide),
   autosave_save_guards_and_completion.2.2.2.2.1
      ⟨"A", some "f", true, 7, "", some "A", none, []⟩ "A" rfl,
   autosave_save_guards_and_completion.2.2.2.2.2
      ⟨"A", some "f", true, 7, "", some "A", none, []⟩ "A" rfl⟩

/-- C7: a render that switches the file identity resets the last-saved
snapshot to the render's current content, and during any subsequent
quiet period no save is triggered for the freshly opened file (the
invocation log stays unchanged) until the content changes again. -/
theorem autosave_snapshot_reset_on_file_switch (s : AutosaveState) (c : String)
    (p : Option String) (hp : p ≠ s.filePath) :
    (astep s (.props c p)).lastSaved = c ∧
    ∀ n, (runTicks (astep s (.props c p)) n).savedCalls = s.savedCalls := by
  have hstep : astep s (.props c p) =
      { rearm { s with content := c, filePath := p } with lastSaved := c } := by
    simp only [astep]
    rw [if_neg (by tauto), if_neg hp]
  constructor
  · rw [hstep]
  · intro n
    rw [hstep]
    have hcl : ({ rearm { s with content := c, filePath := p } with
        lastSaved := c } : AutosaveState).content = c := rearm_content _
    obtain ⟨tm, htm⟩ := runTicks_clean _ (by rw [hcl]) n
    rw [htm]
    exact rearm_savedCalls _

/-- Closed instance of `autosave_snapshot_reset_on_file_switch` at a
concrete state, file switch and quiet period. -/
theorem autosave_snapshot_reset_on_file_switch_witness :
    (astep (⟨"A", some "f", true, 7, "", none, some 3, []⟩ : AutosaveState)
      (.props "X" (some "g"))).lastSaved = "X" ∧
    (runTicks (astep (⟨"A", some "f", true, 7, "", none, some 3, []⟩ : AutosaveState)
      (.props "X" (some "g"))) 9).savedCalls = [] :=
  ⟨(autosave_snapshot_reset_on_file_switch
      ⟨"A", some "f", true, 7, "", none, some 3, []⟩ "X" (some "g") (by decide)).1,
   (autosave_snapshot_reset_on_file_switch
      ⟨"A", some "f", true, 7, "", none, some 3, []⟩ "X" (some "g") (by decide)).2 9⟩

/-! ## Application shell (`App.tsx`) -/

/-- Result record of the `file_open` / `file_save_as` remote calls
(`FileInfo` in `src/tauri/api.ts`). -/
structure FileInfo where
  path : String
  name : String
  content : String
  deriving Repr, DecidableEq

/-- Build status values of the status bar (`StatusBar.tsx`). -/
inductive BuildStatus where
  | idle
  | building
  | success
  | error
  deriving Repr, DecidableEq

/-- Severity of one compiler diagnostic (`api.ts`). -/
inductive Severity where
  | error
  | warning
  | info
  deriving Repr, DecidableEq

/-- One structured compiler diagnostic (`api.ts`). -/
structure Diagnostic where
  severity : Severity
  message : String
  file : Option String
  line : Option Nat
  column : Option Nat
  deriving Repr, DecidableEq

/-- Result of one `build_compile` remote call (`BuildResult` in
`api.ts`); `Option` stands for the nullable fields. -/
structure BuildResult where
  success : Bool
  pdf_path : Option String
  log : String
  duration_ms : Nat
  error_message : Option String
  diagnostics : List Diagnostic
  deriving Repr, DecidableEq

/-- JS truthiness of a `string | null` value: `null` and the empty
string are falsy. -/
def strTruthy : Option String → Bool
  | none => false
  | some str => str != ""

/-- Document-related state owned by the `App` component.  Landing-page
and requirements state is omitted: no claim concerns it.  `isDirty`
mirrors the `isDirty` state plus the `isDirtyRef` ref, which a
`useEffect` keeps equal to `content !== originalContent`. -/
structure AppState where
  content : String
  originalContent : String
  filePath : Option String
  fileName : String
  buildStatus : BuildStatus
  pdfUrl : Option String
  compilerLog : String
  showLog : Bool
  showStartupDialog : Bool
  isDirty : Bool
  deriving Repr, DecidableEq

/-- Dirty-tracking effect of `App`: after the handlers of an event
have run, React re-renders and the effect re-establishes
`isDirty = (content !== originalContent)`. -/
def syncDirty (s : AppState) : AppState :=
  { s with isDirty := s.content != s.originalContent }

/-- A state whose `isDirty` flag agrees with the dirty definition
`content ≠ last-persisted content`. -/
def DirtySynced (s : AppState) : Prop :=
  s.isDirty = (s.content != s.originalContent)

/-- Log text stored after a compile response:
`result.log || result.error_message || 'No output'` with JS
truthiness. -/
def displayLog (r : BuildResult) : String :=
  if r.log != "" then r.log
  else
    match r.error_message with
    | some m => if m != "" then m else "No output"
    | none => "No output"

/-- Handler `handleContentChange`: store `value || ''` as the new
content (the editor passes `string | undefined`). -/
def handleContentChange (s : AppState) (v : Option String) : AppState :=
  syncDirty { s with content := v.getD "" }

/-- Handler `handleOpen`.  `confirmDiscard` is the user's answer to
the unsaved-changes prompt (consulted only when the document is
dirty); `r` is the outcome of the `openFile` API call: an exception, a
cancelled dialog (`none`), or the loaded file. -/
def handleOpen (s : AppState) (confirmDiscard : Bool)
    (r : Except String (Option FileInfo)) : AppState :=
  if s.isDirty && !confirmDiscard then s
  else
    match r with
    | .error _ => s
    | .ok none => s
    | .ok (some fi) =>
        syncDirty { s with content := fi.content, originalContent := fi.content,
                           filePath := some fi.path, fileName := fi.name,
                           pdfUrl := none, buildStatus := .idle, compilerLog := "",
                           showStartupDialog := false }

/-- Handler `handleSaveAs`: on a completed save-as the backend's
`FileInfo` supplies the new original content, path and name (the
in-memory content is not replaced). -/
def handleSaveAs (s : AppState) (r : Except String (Option FileInfo)) : AppState :=
  match r with
  | .error _ => s
  | .ok none => s
  | .ok (some fi) =>
      syncDirty { s with originalContent := fi.content,
                         filePath := some fi.path, fileName := fi.name }

/-- Handler `handleSave`: with a backing file, run `saveFile` and on
success persist the snapshot; without one, delegate to
`handleSaveAs`. -/
def handleSave (s : AppState) (saveR : Except String Unit)
    (saveAsR : Except String (Option FileInfo)) : AppState :=
  match s.filePath with
  | some _ =>
      match saveR with
      | .ok _ => syncDirty { s with originalContent := s.content }
      | .error _ => s
  | none => handleSaveAs s saveAsR

/-- First phase of `handleCompile` after the pre-compile save
succeeded: persist the snapshot, set status `building` and the
placeholder log. -/
def compileBegin (s : AppState) : AppState :=
  syncDirty { s with originalContent := s.content, buildStatus := .building,
                     compilerLog := "Compiling..." }

/-- Handler `handleCompile`.  `saveR` is the outcome of the
pre-compile `saveFile`, `compileR` of `compileLatex`, and `readPdf`
models `readPdfAsDataUrl`, applied to the artifact path when one is
requested for preview. -/
def handleCompile (s : AppState) (saveR : Except String Unit)
    (compileR : Except String BuildResult)
    (readPdf : String → Except String String) : AppState :=
  match s.filePath with
  | none => s
  | some _ =>
      match saveR with
      | .error e =>
          { s with buildStatus := .error,
                   compilerLog := "Compile error: " ++ e, showLog := true }
      | .ok _ =>
          let s1 := compileBegin s
          match compileR with
          | .error e =>
              { s1 with buildStatus := .error,
                        compilerLog := "Compile error: " ++ e, showLog := true }
          | .ok result =>
              let s2 := { s1 with compilerLog := displayLog result }
              if result.success && strTruthy result.pdf_path then
                let s3 := { s2 with buildStatus := .success }
                match result.pdf_path with
                | some p =>
                    match readPdf p with
                    | .ok url => { s3 with pdfUrl := some url }
                    | .error _ =>
                        { s3 with compilerLog :=
                            s3.compilerLog ++ "\n\nFailed to load PDF preview." }
                | none => s3
              else { s2 with buildStatus := .error, showLog := true }

/-- Handler `handleLoadTemplate` (`tmpl` is the imported template
text). -/
def handleLoadTemplate (s : AppState) (tmpl : String) : AppState :=
  syncDirty { s with content := tmpl, originalContent := tmpl,
                     filePath := none, showStartupDialog := false }

/-- Handler `handleBlankFile`. -/
def handleBlankFile (s : AppState) : AppState :=
  { s with showStartupDialog := false }

/-- Handler `handleToggleLog`. -/
def handleToggleLog (s : AppState) : AppState :=
  { s with showLog := !s.showLog }

/-- User-visible events of the editing flow, with the outcome of each
asynchronous call carried in the event. -/
inductive AppEvent where
  | contentChange (v : Option String)
  | openReq (confirmDiscard : Bool) (r : Except String (Option FileInfo))
  | saveReq (saveR : Except String Unit) (saveAsR : Except String (Option FileInfo))
  | saveAsReq (r : Except String (Option FileInfo))
  | compileReq (saveR : Except String Unit) (compileR : Except String BuildResult)
      (readPdf : String → Except String String)
  | loadTemplate (tmpl : String)
  | blankFile
  | toggleLog

/-- One step of the application shell: dispatch an event to its
handler. -/
def appStep (s : AppState) : AppEvent → AppState
  | .contentChange v => handleContentChange s v
  | .openReq confirmDiscard r => handleOpen s confirmDiscard r
  | .saveReq saveR saveAsR => handleSave s saveR saveAsR
  | .saveAsReq r => handleSaveAs s r
  | .compileReq saveR compileR readPdf => handleCompile s saveR compileR readPdf
  | .loadTemplate tmpl => handleLoadTemplate s tmpl
  | .blankFile => handleBlankFile s
  | .toggleLog => handleToggleLog s

/-! ## Tauri API wrappers (`src/tauri/api.ts`) -/

/-- API wrapper `openFile`: `dialog` is the native open-dialog result
(`none` = cancelled), `rpc` the `file_open` remote procedure.  A
cancelled dialog yields `none` without invoking the remote
procedure. -/
def openFile (dialog : Option String)
    (rpc : String → Except String FileInfo) : Except String (Option FileInfo) :=
  match dialog with
  | none => .ok none
  | some path => (rpc path).map some

/-- API wrapper `saveFileAs`: `dialog` is the native save-dialog
result (`none` = cancelled), `rpc` the `file_save_as` remote
procedure applied to the chosen path and the content. -/
def saveFileAs (content : String) (dialog : Option String)
    (rpc : String → String → Except String FileInfo) :
    Except String (Option FileInfo) :=
  match dialog with
  | none => .ok none
  | some path => (rpc path content).map some

/-! ### Claims about the application shell -/

lemma syncDirty_synced (s : AppState) : DirtySynced (syncDirty s) := rfl

lemma appStep_dirty_synced (s : AppState) (e : AppEvent) (hs : DirtySynced s) :
    DirtySynced (appStep s e) := by
  cases e <;>
    simp only [appStep, handleContentChange, handleOpen, handleSave, handleSaveAs,
      handleCompile, handleLoadTemplate, handleBlankFile, handleToggleLog,
      compileBegin] <;>
    (repeat' split) <;>
    first
      | rfl
      | exact hs

/-- C5: the dirty flag always equals `content ≠ last-persisted
content` (the dirty-tracking effect preserves this across every
handler); a successful save makes the document clean; and any
subsequent edit that changes the content makes it dirty again. -/
theorem dirty_tracks_unpersisted_changes :
    (∀ s e, DirtySynced s → DirtySynced (appStep s e)) ∧
    (∀ s saveAsR, s.filePath.isSome = true →
      (handleSave s (.ok ()) saveAsR).isDirty = false) ∧
    (∀ s saveAsR v, s.filePath.isSome = true → v ≠ s.content →
      (handleContentChange (handleSave s (.ok ()) saveAsR) (some v)).isDirty
        = true) := by
  refine ⟨appStep_dirty_synced, ?_, ?_⟩
  · intro s saveAsR hfp
    obtain ⟨p, hp⟩ := Option.isSome_iff_exists.mp hfp
    simp [handleSave, hp, syncDirty]
  · intro s saveAsR v hfp hv
    obtain ⟨p, hp⟩ := Option.isSome_iff_exists.mp hfp
    simp [handleSave, hp, handleContentChange, syncDirty, hv]

/-- Closed instance of `dirty_tracks_unpersisted_changes` at concrete
states and a concrete edit. -/
theorem dirty_tracks_unpersisted_changes_witness :
    DirtySynced (appStep
      (⟨"y", "x", some "/f.tex", "f.tex", .idle, none, "", false, false, true⟩ :
        AppState) (.contentChange (some "z"))) ∧
    (handleSave (⟨"y", "x", some "/f.tex", "f.tex", .idle, none, "", false, false,
        true⟩ : AppState) (.ok ()) (.ok none)).isDirty = false ∧
    (handleContentChange (handleSave
      (⟨"y", "x", some "/f.tex", "f.tex", .idle, none, "", false, false, true⟩ :
        AppState) (.ok ()) (.ok none)) (some "z")).isDirty = true :=
  ⟨dirty_tracks_unpersisted_changes.1 _ _ rfl,
   dirty_tracks_unpersisted_changes.2.1 _ (.ok none) rfl,
   dirty_tracks_unpersisted_changes.2.2 _ (.ok none) "z" rfl (by decide)⟩

/-- C4: an open-file request while the document is dirty that the user
declines leaves the entire document state (content, original content,
file path, file name, build status, PDF url, compiler log, and the
rest) unchanged; the confirmation prompt is consulted only in the
dirty case (modelled by the `confirmDiscard` guard of
`handleOpen`). -/
theorem open_declined_while_dirty_is_noop (s : AppState)
    (r : Except String (Option FileInfo)) (hd : s.isDirty = true) :
    handleOpen s false r = s := by
  unfold handleOpen
  rw [if_pos (by simp [hd])]

/-- Closed instance of `open_declined_while_dirty_is_noop` at a dirty
concrete state. -/
theorem open_declined_while_dirty_is_noop_witness :
    handleOpen (⟨"y", "x", some "/f.tex", "f.tex", .success, some "u", "log",
        true, false, true⟩ : AppState) false
      (.ok (some ⟨"/g.tex", "g.tex", "G"⟩)) =
    ⟨"y", "x", some "/f.tex", "f.tex", .success, some "u", "log",
        true, false, true⟩ :=
  open_declined_while_dirty_is_noop _ _ rfl

/-- C10: a successful open (dialog confirmed or document clean, load
succeeded) replaces content, original content, file path and file
name with the opened file's values and clears the PDF preview, resets
the build status to idle and clears the compiler log. -/
theorem open_success_resets_build_state (s : AppState) (confirmDiscard : Bool)
    (fi : FileInfo) (h : s.isDirty = false ∨ confirmDiscard = true) :
    (handleOpen s confirmDiscard (.ok (some fi))).content = fi.content ∧
    (handleOpen s confirmDiscard (.ok (some fi))).originalContent = fi.content ∧
    (handleOpen s confirmDiscard (.ok (some fi))).filePath = some fi.path ∧
    (handleOpen s confirmDiscard (.ok (some fi))).fileName = fi.name ∧
    (handleOpen s confirmDiscard (.ok (some fi))).pdfUrl = none ∧
    (handleOpen s confirmDiscard (.ok (some fi))).buildStatus = .idle ∧
    (handleOpen s confirmDiscard (.ok (some fi))).compilerLog = "" := by
  have hg : (s.isDirty && !confirmDiscard) = false := by
    rcases h with h | h <;> simp [h]
  unfold handleOpen
  rw [hg]
  exact ⟨rfl, rfl, rfl, rfl, rfl, rfl, rfl⟩

/-- Closed instance of `open_success_resets_build_state` at a concrete
dirty state with a confirmed discard. -/
theorem open_success_resets_build_state_witness :
    (handleOpen (⟨"y", "x", some "/f.tex", "f.tex", .success, some "u", "log",
        true, false, true⟩ : AppState) true
      (.ok (some ⟨"/g.tex", "g.tex", "G"⟩))).content = "G" ∧
    (handleOpen (⟨"y", "x", some "/f.tex", "f.tex", .success, some "u", "log",
        true, false, true⟩ : AppState) true
      (.ok (some ⟨"/g.tex", "g.tex", "G"⟩))).originalContent = "G" ∧
    (handleOpen (⟨"y", "x", some "/f.tex", "f.tex", .success, some "u", "log",
        true, false, true⟩ : AppState) true
      (.ok (some ⟨"/g.tex", "g.tex", "G"⟩))).filePath = some "/g.tex" ∧
    (handleOpen (⟨"y", "x", some "/f.tex", "f.tex", .success, some "u", "log",
        true, false, true⟩ : AppState) true
      (.ok (some ⟨"/g.tex", "g.tex", "G"⟩))).fileName = "g.tex" ∧
    (handleOpen (⟨"y", "x", some "/f.tex", "f.tex", .success, some "u", "log",
        true, false, true⟩ : AppState) true
      (.ok (some ⟨"/g.tex", "g.tex", "G"⟩))).pdfUrl = none ∧
    (handleOpen (⟨"y", "x", some "/f.tex", "f.tex", .success, some "u", "log",
        true, false, true⟩ : AppState) true
      (.ok (some ⟨"/g.tex", "g.tex", "G"⟩))).buildStatus = .idle ∧
    (handleOpen (⟨"y", "x", some "/f.tex", "f.tex", .success, some "u", "log",
        true, false, true⟩ : AppState) true
      (.ok (some ⟨"/g.tex", "g.tex", "G"⟩))).compilerLog = "" :=
  open_success_resets_build_state _ true ⟨"/g.tex", "g.tex", "G"⟩ (Or.inr rfl)

/-- C9: saving with no backing file identity ignores the `saveFile`
outcome entirely (the remote save procedure is not called) and
behaves as the save-as flow; when the save-as dialog completes, the
returned path and name become the new file identity. -/
theorem save_without_identity_falls_back_to_save_as :
    (∀ s saveR saveR' saveAsR, s.filePath = none →
      handleSave s saveR saveAsR = handleSave s saveR' saveAsR) ∧
    (∀ s saveR saveAsR, s.filePath = none →
      handleSave s saveR saveAsR = handleSaveAs s saveAsR) ∧
    (∀ s saveR fi, s.filePath = none →
      (handleSave s saveR (.ok (some fi))).filePath = some fi.path ∧
      (handleSave s saveR (.ok (some fi))).fileName = fi.name) := by
  have key : ∀ s saveR saveAsR, s.filePath = none →
      handleSave s saveR saveAsR = handleSaveAs s saveAsR := by
    intro s saveR saveAsR hfp
    simp [handleSave, hfp]
  refine ⟨?_, key, ?_⟩
  · intro s saveR saveR' saveAsR hfp
    rw [key s saveR saveAsR hfp, key s saveR' saveAsR hfp]
  · intro s saveR fi hfp
    rw [key s saveR (.ok (some fi)) hfp]
    exact ⟨rfl, rfl⟩

/-- Closed instance of `save_without_identity_falls_back_to_save_as`
at a concrete fileless state. -/
theorem save_without_identity_falls_back_to_save_as_witness :
    handleSave (⟨"y", "x", none, "No file open", .idle, none, "", false, false,
        true⟩ : AppState) (.error "save rpc") (.ok (some ⟨"/g.tex", "g.tex", "y"⟩)) =
      handleSave (⟨"y", "x", none, "No file open", .idle, none, "", false, false,
        true⟩ : AppState) (.ok ()) (.ok (some ⟨"/g.tex", "g.tex", "y"⟩)) ∧
    handleSave (⟨"y", "x", none, "No file open", .idle, none, "", false, false,
        true⟩ : AppState) (.ok ()) (.ok (some ⟨"/g.tex", "g.tex", "y"⟩)) =
      handleSaveAs (⟨"y", "x", none, "No file open", .idle, none, "", false, false,
        true⟩ : AppState) (.ok (some ⟨"/g.tex", "g.tex", "y"⟩)) ∧
    (handleSave (⟨"y", "x", none, "No file open", .idle, none, "", false, false,
        true⟩ : AppState) (.ok ()) (.ok (some ⟨"/g.tex", "g.tex", "y"⟩))).filePath
      = some "/g.tex" ∧
    (handleSave (⟨"y", "x", none, "No file open", .idle, none, "", false, false,
        true⟩ : AppState) (.ok ()) (.ok (some ⟨"/g.tex", "g.tex", "y"⟩))).fileName
      = "g.tex" :=
  ⟨save_without_identity_falls_back_to_save_as.1 _ (.error "save rpc") (.ok ()) _ rfl,
   save_without_identity_falls_back_to_save_as.2.1 _ (.ok ()) _ rfl,
   (save_without_identity_falls_back_to_save_as.2.2 _ (.ok ())
      ⟨"/g.tex", "g.tex", "y"⟩ rfl).1,
   (save_without_identity_falls_back_to_save_as.2.2 _ (.ok ())
      ⟨"/g.tex", "g.tex", "y"⟩ rfl).2⟩

/-- Refutation of C3 as stated: a compile response whose success flag
is true but whose `pdf_path` is null drives the build status to
`error`, not to `success` as the claim's "success when the flag is
true" requires (the code branches on
`result.success && result.pdf_path`). -/
theorem compile_status_flag_alone_counterexample :
    (⟨true, none, "log text", 5, none, []⟩ : BuildResult).success = true ∧
    (handleCompile (⟨"x", "x", some "/f.tex", "f.tex", .idle, none, "", false,
        false, false⟩ : AppState) (.ok ())
      (.ok ⟨true, none, "log text", 5, none, []⟩)
      (fun p => .ok p)).buildStatus = .error ∧
    BuildStatus.error ≠ BuildStatus.success := by
  refine ⟨rfl, by decide, by decide⟩

/-- C3 amended: a compile request with a file open first moves the
build status to `building` (after the pre-compile save succeeds), and
a received compile response then yields `success` exactly when the
response's success flag is true AND a non-empty artifact path is
present, `error` otherwise. -/
theorem compile_status_transitions_via_building (s : AppState)
    (hfp : s.filePath.isSome = true) :
    (compileBegin s).buildStatus = .building ∧
    ∀ r readPdf, (handleCompile s (.ok ()) (.ok r) readPdf).buildStatus =
      (if r.success && strTruthy r.pdf_path then .success else .error) := by
  obtain ⟨p, hp⟩ := Option.isSome_iff_exists.mp hfp
  refine ⟨rfl, ?_⟩
  intro r readPdf
  simp only [handleCompile, hp]
  split
  · split
    · split <;> rfl
    · rfl
  · rfl

/-- Closed instance of `compile_status_transitions_via_building` at a
concrete state and both flag outcomes. -/
theorem compile_status_transitions_via_building_witness :
    (compileBegin (⟨"x", "x", some "/f.tex", "f.tex", .idle, none, "", false,
        false, false⟩ : AppState)).buildStatus = .building ∧
    (handleCompile (⟨"x", "x", some "/f.tex", "f.tex", .idle, none, "", false,
        false, false⟩ : AppState) (.ok ())
      (.ok ⟨true, some "/out.pdf", "log text", 5, none, []⟩)
      (fun p => .ok p)).buildStatus =
      (if (true : Bool) && strTruthy (some "/out.pdf") then BuildStatus.success
       else BuildStatus.error) ∧
    (handleCompile (⟨"x", "x", some "/f.tex", "f.tex", .idle, none, "", false,
        false, false⟩ : AppState) (.ok ())
      (.ok ⟨false, none, "log text", 5, some "boom", []⟩)
      (fun p => .ok p)).buildStatus =
      (if (false : Bool) && strTruthy (none : Option String) then
        BuildStatus.success else BuildStatus.error) :=
  ⟨(compile_status_transitions_via_building
      ⟨"x", "x", some "/f.tex", "f.tex", .idle, none, "", false, false, false⟩
      rfl).1,
   (compile_status_transitions_via_building
      ⟨"x", "x", some "/f.tex", "f.tex", .idle, none, "", false, false, false⟩
      rfl).2 ⟨true, some "/out.pdf", "log text", 5, none, []⟩ (fun p => .ok p),
   (compile_status_transitions_via_building
      ⟨"x", "x", some "/f.tex", "f.tex", .idle, none, "", false, false, false⟩
      rfl).2 ⟨false, none, "log text", 5, some "boom", []⟩ (fun p => .ok p)⟩

/-- Refutation of C6 as stated: for the path x = "" (success flag
true, `pdf_path` equal to `some ""`), the build status becomes
`error`, not `success`, because the empty string is falsy in
`result.success && result.pdf_path`. -/
theorem compile_success_empty_path_counterexample :
    (⟨true, some "", "log text", 5, none, []⟩ : BuildResult).success = true ∧
    (⟨true, some "", "log text", 5, none, []⟩ : BuildResult).pdf_path = some "" ∧
    (handleCompile (⟨"x", "x", some "/f.tex", "f.tex", .idle, none, "", false,
        false, false⟩ : AppState) (.ok ())
      (.ok ⟨true, some "", "log text", 5, none, []⟩)
      (fun p => .ok ("data:" ++ p))).buildStatus = .error := by
  refine ⟨rfl, rfl, by decide⟩

/-- C6 amended: with a file open and the pre-compile save successful,
a compile response with success flag true and a non-empty artifact
path x makes the status `success` and requests the artifact at x for
preview via the read-binary-as-data-url call (the preview url becomes
that call's result for x); a response with success flag false makes
the status `error` and shows the compiler log panel. -/
theorem compile_response_preview_and_log (s : AppState)
    (hfp : s.filePath.isSome = true) :
    (∀ r x u readPdf, r.success = true → r.pdf_path = some x → x ≠ "" →
      readPdf x = .ok u →
      (handleCompile s (.ok ()) (.ok r) readPdf).buildStatus = .success ∧
      (handleCompile s (.ok ()) (.ok r) readPdf).pdfUrl = some u) ∧
    (∀ r readPdf, r.success = false →
      (handleCompile s (.ok ()) (.ok r) readPdf).buildStatus = .error ∧
      (handleCompile s (.ok ()) (.ok r) readPdf).showLog = true) := by
  obtain ⟨p, hp⟩ := Option.isSome_iff_exists.mp hfp
  constructor
  · intro r x u readPdf hsucc hpath hx hread
    simp [handleCompile, hp, hpath, hsucc, strTruthy, hx, hread]
  · intro r readPdf hsucc
    simp [handleCompile, hp, hsucc]

/-- Closed instance of `compile_response_preview_and_log` at a
concrete state, a successful response with a non-empty artifact path,
and a failed response. -/
theorem compile_response_preview_and_log_witness :
    (handleCompile (⟨"x", "x", some "/f.tex", "f.tex", .idle, none, "", false,
        false, false⟩ : AppState) (.ok ())
      (.ok ⟨true, some "/out.pdf", "log text", 5, none, []⟩)
      (fun p => .ok ("data:" ++ p))).buildStatus = .success ∧
    (handleCompile (⟨"x", "x", some "/f.tex", "f.tex", .idle, none, "", false,
        false, false⟩ : AppState) (.ok ())
      (.ok ⟨true, some "/out.pdf", "log text", 5, none, []⟩)
      (fun p => .ok ("data:" ++ p))).pdfUrl = some "data:/out.pdf" ∧
    (handleCompile (⟨"x", "x", some "/f.tex", "f.tex", .idle, none, "", false,
        false, false⟩ : AppState) (.ok ())
      (.ok ⟨false, none, "log text", 5, some "boom", []⟩)
      (fun p => .ok ("data:" ++ p))).buildStatus = .error ∧
    (handleCompile (⟨"x", "x", some "/f.tex", "f.tex", .idle, none, "", false,
        false, false⟩ : AppState) (.ok ())
      (.ok ⟨false, none, "log text", 5, some "boom", []⟩)
      (fun p => .ok ("data:" ++ p))).showLog = true :=
  ⟨((compile_response_preview_and_log
      ⟨"x", "x", some "/f.tex", "f.tex", .idle, none, "", false, false, false⟩
      rfl).1 ⟨true, some "/out.pdf", "log text", 5, none, []⟩ "/out.pdf"
      "data:/out.pdf" (fun p => .ok ("data:" ++ p)) rfl rfl (by decide) rfl).1,
   ((compile_response_preview_and_log
      ⟨"x", "x", some "/f.tex", "f.tex", .idle, none, "", false, false, false⟩
      rfl).1 ⟨true, some "/out.pdf", "log text", 5, none, []⟩ "/out.pdf"
      "data:/out.pdf" (fun p => .ok ("data:" ++ p)) rfl rfl (by decide) rfl).2,
   ((compile_response_preview_and_log
      ⟨"x", "x", some "/f.tex", "f.tex", .idle, none, "", false, false, false⟩
      rfl).2 ⟨false, none, "log text", 5, some "boom", []⟩
      (fun p => .ok ("data:" ++ p)) rfl).1,
   ((compile_response_preview_and_log
      ⟨"x", "x", some "/f.tex", "f.tex", .idle, none, "", false, false, false⟩
      rfl).2 ⟨false, none, "log text", 5, some "boom", []⟩
      (fun p => .ok ("data:" ++ p)) rfl).2⟩

/-! ### Claims about the API wrappers -/

/-- C8: a cancelled native dialog makes `openFile` / `saveFileAs`
return a successful `none` outcome without invoking the remote
procedure (the result is the same whatever the remote procedure would
do) and without raising an error; the calling handlers leave the state
unchanged on that outcome; and a selected file makes `openFile` return
the loaded path/name/content record. -/
theorem dialog_cancel_is_silent_noop :
    (∀ rpc, openFile none rpc = .ok none) ∧
    (∀ content rpc2, saveFileAs content none rpc2 = .ok none) ∧
    (∀ s confirmDiscard, handleOpen s confirmDiscard (.ok none) = s) ∧
    (∀ s, handleSaveAs s (.ok none) = s) ∧
    (∀ dialogPath rpc fi, rpc dialogPath = .ok fi →
      openFile (some dialogPath) rpc = .ok (some fi)) := by
  refine ⟨fun _ => rfl, fun _ _ => rfl, ?_, fun _ => rfl, ?_⟩
  · intro s confirmDiscard
    unfold handleOpen
    split <;> rfl
  · intro dialogPath rpc fi h
    simp [openFile, h, Except.map]

/-- Closed instance of `dialog_cancel_is_silent_noop`: cancellation
with a would-fail remote procedure, an unchanged caller state, and a
selected file. -/
theorem dialog_cancel_is_silent_noop_witness :
    openFile none (fun _ => .error "rpc boom") = .ok none ∧
    saveFileAs "body" none (fun _ _ => .error "rpc boom") = .ok none ∧
    handleOpen (⟨"y", "x", some "/f.tex", "f.tex", .success, some "u", "log",
        true, false, true⟩ : AppState) true (.ok none) =
      ⟨"y", "x", some "/f.tex", "f.tex", .success, some "u", "log",
        true, false, true⟩ ∧
    handleSaveAs (⟨"y", "x", some "/f.tex", "f.tex", .success, some "u", "log",
        true, false, true⟩ : AppState) (.ok none) =
      ⟨"y", "x", some "/f.tex", "f.tex", .success, some "u", "log",
        true, false, true⟩ ∧
    openFile (some "/g.tex") (fun p => .ok ⟨p, "g.tex", "G"⟩) =
      .ok (some ⟨"/g.tex", "g.tex", "G"⟩) :=
  ⟨dialog_cancel_is_silent_noop.1 (fun _ => .error "rpc boom"),
   dialog_cancel_is_silent_noop.2.1 "body" (fun _ _ => .error "rpc boom"),
   dialog_cancel_is_silent_noop.2.2.1 _ true,
   dialog_cancel_is_silent_noop.2.2.2.1 _,
   dialog_cancel_is_silent_noop.2.2.2.2 "/g.tex" (fun p => .ok ⟨p, "g.tex", "G"⟩)
      ⟨"/g.tex", "g.tex", "G"⟩ rfl⟩
